import Mathlib

/-!
Verification development for the discharge-summary client
(`src/client/src/components/ds.jsx`).

The file shallowly embeds the two algorithmic cores of the component:

* the PDF pagination loop of `handleDownload` (lines 178-200), which slices
  a captured canvas into A4-sized page placements, and
* the submit flow of `handleSubmit` (lines 39-91), including the
  latency-based cache classification (line 74).

JavaScript numbers are modelled as exact rationals (`ℚ`); the `while` loop
of `handleDownload` is modelled with an explicit iteration bound that is
proved sufficient (`addPagesFuel_run` shows the result is independent of
the bound once it exceeds the iteration count).
-/

/-- Fixed physical page size, in millimeters.  The source hardcodes A4
(`imgWidth = 210`, `pageHeight = 297`, lines 179-180); the spec names the
pair `PageGeometry`. -/
structure PageGeometry where
  widthUnits : ℚ
  heightUnits : ℚ
deriving DecidableEq

/-- The captured canvas produced by `html2canvas` (`canvas.width`,
`canvas.height`, used at lines 181 and 191-198). -/
structure CapturedImage where
  pixelWidth : ℚ
  pixelHeight : ℚ
deriving DecidableEq

/-- One output page: `pdf.addImage(canvas, "PNG", 0, position, ...)` draws
the full scaled image at vertical offset `position` (lines 188-198); the
offset is the only varying datum. -/
structure PagePlacement where
  verticalOffsetUnits : ℚ
deriving DecidableEq

/-- The A4 geometry hardcoded at lines 179-180. -/
def a4Geometry : PageGeometry := { widthUnits := 210, heightUnits := 297 }

/-- Line 181: `const imgHeight = (canvas.height * imgWidth) / canvas.width;`
— the height of the image once scaled to exactly fill the page width. -/
def scaledHeightUnits (image : CapturedImage) (geometry : PageGeometry) : ℚ :=
  image.pixelHeight * geometry.widthUnits / image.pixelWidth

/-- The `while (heightLeft >= 0)` loop of lines 195-200, with an explicit
iteration bound.  Each iteration runs line 196
(`position = heightLeft - imgHeight`), emits a page, and then line 199
(`heightLeft -= pageHeight`). -/
def addPagesFuel (imgHeight pageHeight : ℚ) : ℕ → ℚ → List PagePlacement
  | 0, _ => []
  | fuel + 1, heightLeft =>
    if 0 ≤ heightLeft then
      { verticalOffsetUnits := heightLeft - imgHeight } ::
        addPagesFuel imgHeight pageHeight fuel (heightLeft - pageHeight)
    else
      []

/-- A bound on the number of iterations of the lines 195-200 loop.  When
`0 < pageHeight` the loop decrements `heightLeft` (initially
`imgHeight - pageHeight`) by `pageHeight` until it turns negative, so it
runs at most `⌈imgHeight / pageHeight⌉` times; `addPagesFuel_run` proves
the loop result does not depend on the bound once it is large enough. -/
def maxLoopSteps (imgHeight pageHeight : ℚ) : ℕ :=
  (⌈imgHeight / pageHeight⌉).toNat + 1

/-- Lines 186-200 of `handleDownload`: the first page is added at
`position = 0` (lines 188-191), `heightLeft` starts at
`imgHeight - pageHeight` (lines 187 and 192), and the loop of lines
195-200 adds the remaining pages. -/
def paginate (image : CapturedImage) (geometry : PageGeometry) : List PagePlacement :=
  { verticalOffsetUnits := 0 } ::
    addPagesFuel (scaledHeightUnits image geometry) geometry.heightUnits
      (maxLoopSteps (scaledHeightUnits image geometry) geometry.heightUnits)
      (scaledHeightUnits image geometry - geometry.heightUnits)

/-- The document assembly step (`pdf.addPage()` per loop iteration plus the
initial page): one physical page of height `geometry.heightUnits` is
created per placement, so the total rendered height across all pages is
the page count times the page height. -/
def assembleTotalHeightUnits (placements : List PagePlacement)
    (geometry : PageGeometry) : ℚ :=
  placements.length * geometry.heightUnits

lemma addPagesFuel_of_neg (H P hl : ℚ) (h : hl < 0) :
    ∀ n, addPagesFuel H P n hl = [] := by
  intro n
  cases n with
  | zero => rfl
  | succ m => simp [addPagesFuel, not_le.mpr h]

/-- With `0 < P`, starting the lines 195-200 loop at `hl` with
`(k-1)·P ≤ hl < k·P` runs exactly `k` iterations, the `i`-th emitting
offset `hl - i·P - H`; any fuel `n ≥ k` gives the same list, so the
bound used by `paginate` does not affect the result. -/
lemma addPagesFuel_run (H P : ℚ) (hP : 0 < P) :
    ∀ (k n : ℕ) (hl : ℚ), 0 ≤ hl + P - k * P → hl < k * P → k ≤ n →
      addPagesFuel H P n hl
        = (List.range k).map
            fun i : ℕ => ({ verticalOffsetUnits := hl - (i : ℚ) * P - H } : PagePlacement) := by
  intro k
  induction k with
  | zero =>
    intro n hl _ h2 _
    have hneg : hl < 0 := by simpa using h2
    simp [addPagesFuel_of_neg H P hl hneg]
  | succ k ih =>
    intro n hl h1 h2 h3
    have hk0 : (0 : ℚ) ≤ (k : ℚ) * P := mul_nonneg (Nat.cast_nonneg k) hP.le
    have h1' : (0 : ℚ) ≤ hl - k * P := by push_cast at h1; linarith
    have h0 : (0 : ℚ) ≤ hl := by linarith
    obtain ⟨m, rfl⟩ : ∃ m, n = m + 1 := ⟨n - 1, by omega⟩
    rw [show addPagesFuel H P (m + 1) hl
        = if 0 ≤ hl then
            { verticalOffsetUnits := hl - H } ::
              addPagesFuel H P m (hl - P)
          else [] from rfl]
    rw [if_pos h0]
    rw [ih m (hl - P) (by linarith) (by push_cast at h2 ⊢; linarith) (by omega)]
    rw [List.range_succ_eq_map, List.map_cons, List.map_map]
    congr 1
    · simp
    · apply List.map_congr_left
      intro i _
      simp only [Function.comp_apply, PagePlacement.mk.injEq]
      push_cast
      ring

/-- Closed form for the whole of lines 186-200: whenever the scaled image
height `H` is nonnegative and the page height `P` is positive, the code
produces `⌊H / P⌋ + 1` placements whose `i`-th vertical offset is
`-(i · P)` (the first page at offset `0`, from line 188). -/
lemma paginate_pages (image : CapturedImage) (geometry : PageGeometry)
    (hP : 0 < geometry.heightUnits)
    (hH : 0 ≤ scaledHeightUnits image geometry) :
    paginate image geometry
      = { verticalOffsetUnits := 0 } ::
        (List.range (⌊scaledHeightUnits image geometry / geometry.heightUnits⌋).toNat).map
          (fun i : ℕ =>
            ({ verticalOffsetUnits := -(((i : ℚ) + 1) * geometry.heightUnits) } :
              PagePlacement)) := by
  have hHP : (0 : ℚ) ≤ scaledHeightUnits image geometry / geometry.heightUnits :=
    div_nonneg hH hP.le
  have hfl0 : (0 : ℤ) ≤ ⌊scaledHeightUnits image geometry / geometry.heightUnits⌋ :=
    Int.floor_nonneg.mpr hHP
  have hcast :
      ((⌊scaledHeightUnits image geometry / geometry.heightUnits⌋.toNat : ℕ) : ℚ)
        = ((⌊scaledHeightUnits image geometry / geometry.heightUnits⌋ : ℤ) : ℚ) := by
    rw [← Int.cast_natCast, Int.toNat_of_nonneg hfl0]
  have hfloor_le : ((⌊scaledHeightUnits image geometry / geometry.heightUnits⌋ : ℤ) : ℚ)
      ≤ scaledHeightUnits image geometry / geometry.heightUnits := Int.floor_le _
  have hlt_floor : scaledHeightUnits image geometry / geometry.heightUnits
      < ((⌊scaledHeightUnits image geometry / geometry.heightUnits⌋ : ℤ) : ℚ) + 1 :=
    Int.lt_floor_add_one _
  have h1 : (0 : ℚ) ≤ (scaledHeightUnits image geometry - geometry.heightUnits)
        + geometry.heightUnits
        - (⌊scaledHeightUnits image geometry / geometry.heightUnits⌋.toNat : ℚ)
          * geometry.heightUnits := by
    rw [hcast]
    have := (le_div_iff₀ hP).mp hfloor_le
    linarith
  have h2 : scaledHeightUnits image geometry - geometry.heightUnits
      < (⌊scaledHeightUnits image geometry / geometry.heightUnits⌋.toNat : ℚ)
          * geometry.heightUnits := by
    rw [hcast]
    have := (div_lt_iff₀ hP).mp hlt_floor
    linarith
  have h3 : ⌊scaledHeightUnits image geometry / geometry.heightUnits⌋.toNat
      ≤ maxLoopSteps (scaledHeightUnits image geometry) geometry.heightUnits := by
    have hfc := Int.floor_le_ceil
      (scaledHeightUnits image geometry / geometry.heightUnits)
    simp only [maxLoopSteps]
    omega
  rw [paginate,
    addPagesFuel_run (scaledHeightUnits image geometry) geometry.heightUnits hP
      (⌊scaledHeightUnits image geometry / geometry.heightUnits⌋).toNat
      (maxLoopSteps (scaledHeightUnits image geometry) geometry.heightUnits)
      (scaledHeightUnits image geometry - geometry.heightUnits) h1 h2 h3]
  refine congrArg _ (List.map_congr_left fun i _ => ?_)
  simp only [PagePlacement.mk.injEq]
  ring

/-- Claim C1.  The claim states that when `scaledHeightUnits` is exactly
`k * heightUnits` for a positive integer `k`, `paginate` returns exactly
`k` placements and no trailing blank page.  The code does not: at the
failing input below (a 210×594 px canvas, A4 geometry, so
`scaledHeightUnits = 594 = 2 × 297`) it returns `k + 1 = 3` placements,
the last of which shows the window `[594, 891)` of a 594-unit-tall image,
i.e. an entirely blank page — contradicting the source's own comment at
line 194, "Add subsequent pages if content is longer than one page". -/
theorem c1_exact_multiple_emits_trailing_blank_page :
    scaledHeightUnits { pixelWidth := 210, pixelHeight := 594 } a4Geometry
        = 2 * a4Geometry.heightUnits ∧
    paginate { pixelWidth := 210, pixelHeight := 594 } a4Geometry
      = [{ verticalOffsetUnits := 0 }, { verticalOffsetUnits := -297 },
         { verticalOffsetUnits := -594 }] := by
  refine ⟨by norm_num [scaledHeightUnits, a4Geometry], ?_⟩
  rw [paginate_pages _ _ (by norm_num [a4Geometry]) (by norm_num [scaledHeightUnits, a4Geometry])]
  norm_num [scaledHeightUnits, a4Geometry]
  rw [show ((2 : ℤ)).toNat = 2 from rfl, show List.range 2 = [0, 1] from rfl]
  norm_num

/-- Claim C2.  The claim states that an image whose scaled height fits
within one page (`pixelHeight ≤ heightUnits * pixelWidth / widthUnits`,
equality included) yields exactly one placement.  At the boundary the code
does not: a 70×99 px canvas with A4 geometry has
`scaledHeightUnits = 99 * 210 / 70 = 297`, exactly one page height, yet
the loop guard `heightLeft >= 0` runs once more at `heightLeft = 0` and a
second, blank placement is emitted. -/
theorem c2_exact_fit_emits_second_placement :
    ({ pixelWidth := 70, pixelHeight := 99 } : CapturedImage).pixelHeight
        ≤ a4Geometry.heightUnits
            * ({ pixelWidth := 70, pixelHeight := 99 } : CapturedImage).pixelWidth
            / a4Geometry.widthUnits ∧
    paginate { pixelWidth := 70, pixelHeight := 99 } a4Geometry
      = [{ verticalOffsetUnits := 0 }, { verticalOffsetUnits := -297 }] := by
  refine ⟨by norm_num [a4Geometry], ?_⟩
  rw [paginate_pages _ _ (by norm_num [a4Geometry]) (by norm_num [scaledHeightUnits, a4Geometry])]
  norm_num [scaledHeightUnits, a4Geometry]
  rw [show List.range 1 = [0] from rfl]
  norm_num

/-- Claim C3: when `scaledHeightUnits = k * heightUnits + r` with
`0 < r < heightUnits`, `paginate` returns exactly `k + 1` placements and
the placement at page index `i` has `verticalOffsetUnits = -(i * heightUnits)`. -/
theorem c3_partial_page_count_and_offsets (image : CapturedImage)
    (geometry : PageGeometry) (k : ℕ) (r : ℚ)
    (hH : scaledHeightUnits image geometry = k * geometry.heightUnits + r)
    (hr0 : 0 < r) (hrP : r < geometry.heightUnits) :
    (paginate image geometry).length = k + 1 ∧
      ∀ (i : ℕ) (h : i < (paginate image geometry).length),
        ((paginate image geometry).get ⟨i, h⟩).verticalOffsetUnits
          = -((i : ℚ) * geometry.heightUnits) := by
  have hP : 0 < geometry.heightUnits := hr0.trans hrP
  have hk0 : (0 : ℚ) ≤ (k : ℚ) * geometry.heightUnits :=
    mul_nonneg (Nat.cast_nonneg k) hP.le
  have hHnn : 0 ≤ scaledHeightUnits image geometry := by rw [hH]; linarith
  have hfloor : ⌊scaledHeightUnits image geometry / geometry.heightUnits⌋ = (k : ℤ) := by
    rw [hH, Int.floor_eq_iff]
    rw [le_div_iff₀ hP, div_lt_iff₀ hP]
    push_cast
    constructor <;> nlinarith
  have hlist := paginate_pages image geometry hP hHnn
  rw [hfloor, Int.toNat_natCast] at hlist
  constructor
  · rw [hlist]; simp
  · intro i h
    rw [List.get_of_eq hlist ⟨i, h⟩]
    rcases i with _ | j
    · simp
    · have hj : j < k := by
        have := h
        rw [hlist] at this
        simpa using this
      simp only [List.get_eq_getElem, Fin.coe_cast, List.getElem_cons_succ,
        List.getElem_map, List.getElem_range]
      push_cast
      ring

/-- Witness for C3: the spec's own scenario, a 1000×3000 px image with
210×297 geometry, so `scaledHeightUnits = 630 = 2 * 297 + 36`; the claim
gives 3 placements, the last at offset `-594`. -/
theorem c3_partial_page_count_and_offsets_witness :
    (paginate { pixelWidth := 1000, pixelHeight := 3000 }
        { widthUnits := 210, heightUnits := 297 }).length = 2 + 1 ∧
    ((paginate { pixelWidth := 1000, pixelHeight := 3000 }
        { widthUnits := 210, heightUnits := 297 }).getD 2
          { verticalOffsetUnits := 0 }).verticalOffsetUnits = -((2 : ℚ) * 297) := by
  have h := c3_partial_page_count_and_offsets
    { pixelWidth := 1000, pixelHeight := 3000 } { widthUnits := 210, heightUnits := 297 }
    2 36 (by norm_num [scaledHeightUnits]) (by norm_num) (by norm_num)
  refine ⟨h.1, ?_⟩
  have hlt : 2 < (paginate { pixelWidth := 1000, pixelHeight := 3000 }
      { widthUnits := 210, heightUnits := 297 }).length := by
    rw [h.1]
    omega
  rw [List.getD_eq_getElem _ _ hlt]
  have h2 := h.2 2 hlt
  rw [List.get_eq_getElem] at h2
  rw [h2]
  norm_num

/-- Claim C6, counterexample.  The claim states `paginate` fails with
`InvalidImageError` when `pixelWidth ≤ 0`.  The code performs no such
validation: at `pixelWidth = -100` (scaled height `300·210/(-100) = -630`)
it does not fail and returns an ordinary single placement at offset 0. -/
theorem c6_counterexample_negative_width_returns_placement :
    paginate { pixelWidth := -100, pixelHeight := 300 }
        { widthUnits := 210, heightUnits := 297 }
      = [{ verticalOffsetUnits := 0 }] := by
  have hneg : scaledHeightUnits { pixelWidth := -100, pixelHeight := 300 }
        { widthUnits := 210, heightUnits := 297 }
      - ({ widthUnits := 210, heightUnits := 297 } : PageGeometry).heightUnits < 0 := by
    norm_num [scaledHeightUnits]
  rw [paginate, addPagesFuel_of_neg _ _ _ hneg]

/-- Claim C6 as amended: the code contains no `pixelWidth ≤ 0` check; for
any image with negative `pixelWidth` (and positive `pixelHeight` and
geometry) `paginate` does not fail but returns a single placement with
`verticalOffsetUnits = 0`, computed from the negative scaled height. -/
theorem c6_no_validation_single_placement (image : CapturedImage)
    (geometry : PageGeometry) (hw : image.pixelWidth < 0)
    (hh : 0 < image.pixelHeight) (hgw : 0 < geometry.widthUnits)
    (hgh : 0 < geometry.heightUnits) :
    paginate image geometry = [{ verticalOffsetUnits := 0 }] := by
  have hH : scaledHeightUnits image geometry < 0 :=
    div_neg_of_pos_of_neg (mul_pos hh hgw) hw
  have hneg : scaledHeightUnits image geometry - geometry.heightUnits < 0 := by linarith
  rw [paginate, addPagesFuel_of_neg _ _ _ hneg]

/-- Witness for the amended C6 at a concrete input. -/
theorem c6_no_validation_single_placement_witness :
    paginate { pixelWidth := -50, pixelHeight := 100 }
        { widthUnits := 210, heightUnits := 297 }
      = [{ verticalOffsetUnits := 0 }] :=
  c6_no_validation_single_placement _ _ (by norm_num) (by norm_num) (by norm_num) (by norm_num)

/-- Claim C8.  The claim states the total rendered height across all
assembled pages equals `⌈scaledHeightUnits / heightUnits⌉ * heightUnits`.
At an exact multiple the code emits one extra blank page: for a 420×594 px
canvas with A4 geometry, `scaledHeightUnits = 297`, the ceiling formula
gives `1 × 297 = 297`, but the code produces two pages totalling `594`.
(The weaker `total ≥ scaledHeightUnits` — no content lost — still holds.) -/
theorem c8_total_height_exceeds_ceil_at_exact_multiple :
    assembleTotalHeightUnits
        (paginate { pixelWidth := 420, pixelHeight := 594 } a4Geometry) a4Geometry = 594 ∧
    (⌈scaledHeightUnits { pixelWidth := 420, pixelHeight := 594 } a4Geometry
        / a4Geometry.heightUnits⌉ : ℚ) * a4Geometry.heightUnits = 297 := by
  constructor
  · rw [assembleTotalHeightUnits,
      paginate_pages _ _ (by norm_num [a4Geometry]) (by norm_num [scaledHeightUnits, a4Geometry])]
    norm_num [scaledHeightUnits, a4Geometry]
  · norm_num [scaledHeightUnits, a4Geometry]

/-! ## The submit flow (`handleSubmit`, lines 39-91) -/

/-- Line 74: `setIsCached(responseTime < 100)` — the latency heuristic the
spec names `CacheClassifier.classify`, with the hardcoded `100` abstracted
as the threshold argument. -/
def classify (elapsedMs thresholdMs : ℚ) : Bool :=
  decide (elapsedMs < thresholdMs)

/-- The threshold hardcoded at line 74. -/
def defaultThresholdMs : ℚ := 100

/-- JavaScript `String.prototype.trim`, modelled over the character list
(dropping leading and trailing whitespace); used by the line 40 guard
`if (!medicalText.trim())`. -/
def jsTrim (s : String) : String :=
  ⟨((s.data.dropWhile Char.isWhitespace).reverse.dropWhile Char.isWhitespace).reverse⟩

/-- JavaScript truthiness of an optional string field: absent, or present
but the empty string, is falsy — the line 68 test
`if (result.raw_llama_output)`. -/
def jsTruthyStr : Option String → Bool
  | none => false
  | some s => !(s.isEmpty)

/-- JavaScript `String.prototype.includes`, used at line 81
(`err.message.includes("Failed to fetch")`). -/
def strContains (s sub : String) : Bool :=
  (List.range (s.data.length + 1)).any fun i => sub.data.isPrefixOf (s.data.drop i)

/-- The parsed JSON body of a successful response (line 66):
`raw_llama_output` is the optional field read at lines 68-69, and
`prettyJson` carries the line 76 rendering `JSON.stringify(result, null, 2)`
of the full payload as opaque data. -/
structure ServiceResult where
  raw_llama_output : Option String
  prettyJson : String
deriving DecidableEq

/-- A completed HTTP exchange: status, body text (line 63), parsed JSON
(line 66) and the measured wall-clock duration
`performance.now() - startTime` (line 73). -/
structure FetchResponse where
  status : ℕ
  bodyText : String
  json : ServiceResult
  elapsedMs : ℚ
deriving DecidableEq

/-- The environment's behaviour for the single `fetch` call of line 52:
either the promise rejects with an error message (network failure), or a
response arrives. -/
inductive FetchBehavior
  | reject (message : String)
  | response (r : FetchResponse)
deriving DecidableEq

/-- The component state touched by `handleSubmit`: the six `useState`
cells of lines 15-20. -/
structure UIState where
  medicalText : String
  rawOutput : String
  loading : Bool
  error : String
  showModal : Bool
  isCached : Bool
deriving DecidableEq

/-- `response.ok` of the Fetch API (line 62): status in the 2xx range. -/
def responseOk (status : ℕ) : Bool :=
  200 ≤ status && status ≤ 299

/-- The message of the error thrown at line 63:
`HTTP ${response.status}: ${await response.text()}`. -/
def httpErrorMessage (status : ℕ) (body : String) : String :=
  "HTTP " ++ toString status ++ ": " ++ body

/-- The connection-error message of lines 82-84. -/
def connectionErrorMsg : String :=
  "Connection error. Make sure the backend server is running on port 8000."

/-- The catch block of lines 79-87: a thrown error whose message contains
"Failed to fetch" is reported as a connection error, anything else as
`Error: ${err.message}`. -/
def catchBranch (s : UIState) (message : String) : UIState :=
  if strContains message "Failed to fetch" then
    { s with error := connectionErrorMsg }
  else
    { s with error := "Error: " ++ message }

/-- Lines 39-91, `handleSubmit`, as a state transformer.  The second
component counts network exchanges (calls of the line 52 `fetch`).
Lines 40-43 guard on blank input; lines 45-48 clear the previous result
before the exchange; line 62-63 throw on a non-ok response; lines 68-78
store the payload and classify the latency; lines 79-87 are the catch
block; line 89 (`finally`) clears the loading flag. -/
def handleSubmit (s : UIState) (f : FetchBehavior) : UIState × ℕ :=
  if jsTrim s.medicalText = "" then
    ({ s with error := "Please enter medical text" }, 0)
  else
    let s1 : UIState :=
      { s with loading := true, error := "", rawOutput := "", isCached := false }
    match f with
    | .reject msg => ({ catchBranch s1 msg with loading := false }, 1)
    | .response r =>
      if responseOk r.status then
        if jsTruthyStr r.json.raw_llama_output then
          ({ s1 with
              rawOutput := r.json.raw_llama_output.getD "",
              showModal := true,
              isCached := classify r.elapsedMs defaultThresholdMs,
              loading := false }, 1)
        else
          ({ s1 with
              rawOutput := r.json.prettyJson,
              showModal := true,
              loading := false }, 1)
      else
        ({ catchBranch s1 (httpErrorMessage r.status r.bodyText) with
            loading := false }, 1)

/-- Whether the exchange failed: the fetch promise rejected, or the
response was non-ok (in which case line 63 throws). -/
def fetchFailed : FetchBehavior → Bool
  | .reject _ => true
  | .response r => !responseOk r.status

/-- Claim C4: the cache classifier is the pure strict comparison
`elapsedMs < thresholdMs` with default threshold 100; in particular
`classify 50 100 = true`, `classify 150 100 = false`, and — strict
inequality at the boundary — `classify 100 100 = false`. -/
theorem c4_classifier_strict_boundary :
    defaultThresholdMs = 100 ∧
    (∀ e : ℚ, classify e defaultThresholdMs = true ↔ e < 100) ∧
    classify 50 100 = true ∧ classify 150 100 = false ∧
    classify 100 100 = false := by
  refine ⟨rfl, fun e => ?_, by decide, by decide, by decide⟩
  simp [classify, defaultThresholdMs]

/-- Claim C5: for every input whose trimmed value is empty (the empty
string included), `handleSubmit` sets the empty-input error and performs
no network exchange at all — the fetch count is 0 and the rest of the
state is untouched, whatever the environment would have answered. -/
theorem c5_empty_input_no_network (s : UIState) (f : FetchBehavior)
    (h : jsTrim s.medicalText = "") :
    handleSubmit s f = ({ s with error := "Please enter medical text" }, 0) := by
  simp [handleSubmit, h]

/-- Witness for C5 at a whitespace-only input. -/
theorem c5_empty_input_no_network_witness :
    handleSubmit
        { medicalText := "  ", rawOutput := "old", loading := false,
          error := "", showModal := false, isCached := true }
        (.reject "Failed to fetch")
      = ({ medicalText := "  ", rawOutput := "old", loading := false,
           error := "Please enter medical text", showModal := false,
           isCached := true }, 0) :=
  c5_empty_input_no_network _ _ (by decide)

/-- Claim C7, counterexample.  The claim states every non-2xx response
produces an error surfacing the status code and the body text.  Not so
when the body itself contains "Failed to fetch": the composed message
`HTTP 500: Failed to fetch` matches the line 81 substring test, so the
code reports the generic connection error, which contains neither the
status `500` nor the body text. -/
theorem c7_counterexample_body_failed_to_fetch :
    (handleSubmit
        { medicalText := "abc", rawOutput := "", loading := false,
          error := "", showModal := false, isCached := false }
        (.response
          { status := 500, bodyText := "Failed to fetch",
            json := { raw_llama_output := none, prettyJson := "payload" },
            elapsedMs := 50 })).1.error = connectionErrorMsg ∧
    strContains connectionErrorMsg "500" = false ∧
    strContains connectionErrorMsg "Failed to fetch" = false := by
  refine ⟨?_, by decide, by decide⟩
  decide

/-- Claim C7 as amended: for every non-2xx response whose composed thrown
message `HTTP {status}: {body}` does not contain "Failed to fetch", the
surfaced error is exactly `Error: HTTP {status}: {body}` — carrying the
status code and the body text — after exactly one network exchange.
(When the body does contain "Failed to fetch", the code misreports the
service error as a connection error; see the counterexample.) -/
theorem c7_service_error_surfaced (s : UIState) (r : FetchResponse)
    (hne : ¬ jsTrim s.medicalText = "")
    (hok : responseOk r.status = false)
    (hmsg : strContains (httpErrorMessage r.status r.bodyText) "Failed to fetch" = false) :
    (handleSubmit s (.response r)).1.error
        = "Error: " ++ httpErrorMessage r.status r.bodyText ∧
    (handleSubmit s (.response r)).2 = 1 := by
  simp [handleSubmit, hne, hok, catchBranch, hmsg]

/-- Witness for the amended C7: a 404 with body "not found". -/
theorem c7_service_error_surfaced_witness :
    (handleSubmit
        { medicalText := "abc", rawOutput := "", loading := false,
          error := "", showModal := false, isCached := false }
        (.response
          { status := 404, bodyText := "not found",
            json := { raw_llama_output := none, prettyJson := "payload" },
            elapsedMs := 50 })).1.error
        = "Error: " ++ httpErrorMessage 404 "not found" ∧
    (handleSubmit
        { medicalText := "abc", rawOutput := "", loading := false,
          error := "", showModal := false, isCached := false }
        (.response
          { status := 404, bodyText := "not found",
            json := { raw_llama_output := none, prettyJson := "payload" },
            elapsedMs := 50 })).2 = 1 :=
  c7_service_error_surfaced _ _ (by decide) (by decide) (by decide)

/-- Claim C9: result replacement is not atomic with respect to failure —
lines 47-48 clear `rawOutput` and `isCached` before the exchange, and the
catch block never restores them, so after any failed exchange (rejected
fetch or non-ok response) the previously displayed result is gone. -/
theorem c9_failure_clears_previous_result (s : UIState) (f : FetchBehavior)
    (hne : ¬ jsTrim s.medicalText = "") (hf : fetchFailed f = true) :
    (handleSubmit s f).1.rawOutput = "" ∧ (handleSubmit s f).1.isCached = false := by
  cases f with
  | reject msg =>
    simp only [handleSubmit, hne, if_false, catchBranch]
    split <;> simp
  | response r =>
    have hok : responseOk r.status = false := by
      simpa [fetchFailed] using hf
    simp [handleSubmit, hne, hok, catchBranch]
    split <;> simp

/-- Witness for C9: a previously displayed cached result is wiped by a
failed exchange. -/
theorem c9_failure_clears_previous_result_witness :
    (handleSubmit
        { medicalText := "abc", rawOutput := "previous result", loading := false,
          error := "", showModal := true, isCached := true }
        (.reject "Failed to fetch")).1.rawOutput = "" ∧
    (handleSubmit
        { medicalText := "abc", rawOutput := "previous result", loading := false,
          error := "", showModal := true, isCached := true }
        (.reject "Failed to fetch")).1.isCached = false :=
  c9_failure_clears_previous_result _ _ (by decide) (by decide)

/-- Claim C10: when a successful (2xx) response lacks the
`raw_llama_output` field, the classifier is never applied — the
pretty-printed full payload becomes the display payload and `isCached`
stays `false` regardless of the measured latency. -/
theorem c10_missing_field_skips_classifier (s : UIState) (r : FetchResponse)
    (hne : ¬ jsTrim s.medicalText = "")
    (hok : responseOk r.status = true)
    (hnone : r.json.raw_llama_output = none) :
    (handleSubmit s (.response r)).1.rawOutput = r.json.prettyJson ∧
    (handleSubmit s (.response r)).1.isCached = false := by
  simp [handleSubmit, hne, hok, jsTruthyStr, hnone]

/-- Witness for C10: a 5 ms response — far below the threshold — is still
labelled not-cached when the field is absent. -/
theorem c10_missing_field_skips_classifier_witness :
    (handleSubmit
        { medicalText := "abc", rawOutput := "", loading := false,
          error := "", showModal := false, isCached := false }
        (.response
          { status := 200, bodyText := "",
            json := { raw_llama_output := none, prettyJson := "full payload" },
            elapsedMs := 5 })).1.rawOutput = "full payload" ∧
    (handleSubmit
        { medicalText := "abc", rawOutput := "", loading := false,
          error := "", showModal := false, isCached := false }
        (.response
          { status := 200, bodyText := "",
            json := { raw_llama_output := none, prettyJson := "full payload" },
            elapsedMs := 5 })).1.isCached = false :=
  c10_missing_field_skips_classifier _ _ (by decide) (by decide) (by decide)
